import Mathlib

/-!
Verification of the Sonix native audio core against its specification.

The development shallowly embeds the C sources:
  * `src/native/src/mp4_container.c` — ISOBMFF/MP4 box parser
  * `src/native/src/sonix_native.c`  — format detector, whole-file MP3
    decode, chunked decode orchestrator, seek estimator, cleanup

Bytes are modelled as `List Nat` (each read is masked by `% 256`, matching
`uint8_t`); machine integers are `Nat` with explicit truncation where the C
overflows matter; fallible C functions returning an `int` status become
`Except SonixErr`; C out-parameters that may be left untouched on error are
threaded explicitly (initial value in, final value out).
-/

namespace Sonix

/-- One byte of an input buffer, as `uint8_t` access `data[i]` (reads past
the end of the modelled buffer yield 0). -/
def byteAt (d : List Nat) (i : Nat) : Nat := d.getD i 0 % 256

/-- `read_be16` from mp4_container.c. -/
def readBE16 (d : List Nat) (i : Nat) : Nat := byteAt d i * 256 + byteAt d (i + 1)

/-- `read_be32` from mp4_container.c. -/
def readBE32 (d : List Nat) (i : Nat) : Nat :=
  ((byteAt d i * 256 + byteAt d (i + 1)) * 256 + byteAt d (i + 2)) * 256 + byteAt d (i + 3)

/-- `read_be64` from mp4_container.c. -/
def readBE64 (d : List Nat) (i : Nat) : Nat := readBE32 d i * 2 ^ 32 + readBE32 d (i + 4)

/-- Error taxonomy: the `SONIX_ERROR_*` codes used by the sources (the
MP4-specific codes appear in mp4_container.c; their numeric values live in a
header revision outside src/, so they are modelled as distinct constructors). -/
inductive SonixErr where
  | invalidFormat
  | decodeFailed
  | outOfMemory
  | invalidData
  | mp4ContainerInvalid
  | mp4NoAudioTrack
  | mp4UnsupportedCodec
deriving DecidableEq, Repr

-- Format constants from sonix_native.h
def SONIX_FORMAT_UNKNOWN : Nat := 0
def SONIX_FORMAT_MP3 : Nat := 1
def SONIX_FORMAT_FLAC : Nat := 2
def SONIX_FORMAT_WAV : Nat := 3
def SONIX_FORMAT_OGG : Nat := 4
def SONIX_FORMAT_OPUS : Nat := 5

-- Box type FourCC constants from mp4_container.c
def BOX_TYPE_FTYP : Nat := 0x66747970
def BOX_TYPE_MOOV : Nat := 0x6D6F6F76
def BOX_TYPE_TRAK : Nat := 0x7472616B
def BOX_TYPE_MDIA : Nat := 0x6D646961
def BOX_TYPE_MINF : Nat := 0x6D696E66
def BOX_TYPE_STBL : Nat := 0x7374626C
def BOX_TYPE_STSD : Nat := 0x73747364
def BOX_TYPE_STSZ : Nat := 0x7374737A
def BOX_TYPE_STCO : Nat := 0x7374636F
def BOX_TYPE_CO64 : Nat := 0x636F3634
def BOX_TYPE_MDHD : Nat := 0x6D646864
def BOX_TYPE_HDLR : Nat := 0x68646C72
def CODEC_TYPE_MP4A : Nat := 0x6D703461
def HANDLER_TYPE_SOUN : Nat := 0x736F756E

/-- `Mp4BoxHeader` from mp4_container.h. -/
structure Mp4BoxHeader where
  size : Nat
  btype : Nat
  header_size : Nat
deriving DecidableEq, Repr

/-- `Mp4MediaHeader` from mp4_container.h. -/
structure Mp4MediaHeader where
  creation_time : Nat
  modification_time : Nat
  timescale : Nat
  duration : Nat
deriving DecidableEq, Repr

/-- `Mp4HandlerReference` from mp4_container.h. -/
structure Mp4HandlerReference where
  handler_type : Nat
  is_audio : Bool
deriving DecidableEq, Repr

/-- `Mp4SampleDescription` from mp4_container.h. -/
structure Mp4SampleDescription where
  codec_type : Nat
  is_supported : Bool
  channels : Nat
  sample_size : Nat
  sample_rate : Nat
deriving DecidableEq, Repr

/-- `Mp4SampleTable` from mp4_container.h. -/
structure Mp4SampleTable where
  sample_count : Nat
  chunk_count : Nat
  default_sample_size : Nat
  has_sample_sizes : Bool
  has_chunk_offsets : Bool
deriving DecidableEq, Repr

/-- `Mp4AudioTrack` from mp4_container.h. -/
structure Mp4AudioTrack where
  track_id : Nat
  media_header : Mp4MediaHeader
  sample_description : Mp4SampleDescription
  sample_table : Mp4SampleTable
  is_valid : Bool
deriving DecidableEq, Repr

/-- `mp4_parse_box_header` (mp4_container.c:46).  The window `d` plays the
role of `(data, data_size)`. -/
def mp4_parse_box_header (d : List Nat) : Except SonixErr Mp4BoxHeader :=
  if d.length < 8 then .error .invalidData
  else
    let size32 := readBE32 d 0
    let btype := readBE32 d 4
    if size32 = 1 then
      if d.length < 16 then .error .invalidData
      else
        let size := readBE64 d 8
        if size < 16 ∨ d.length < size then .error .mp4ContainerInvalid
        else .ok ⟨size, btype, 16⟩
    else if size32 = 0 then .error .mp4ContainerInvalid
    else if size32 < 8 ∨ d.length < size32 then .error .mp4ContainerInvalid
    else .ok ⟨size32, btype, 8⟩

/-- Loop body of `mp4_find_box` (mp4_container.c:106), fuelled; `off` is the
current cursor as an offset into `d`, so `remaining = d.length - off`. -/
def findBoxLoop (d : List Nat) (btype : Nat) : Nat → Nat → Option (Nat × Nat)
  | _, 0 => none
  | off, fuel + 1 =>
    if d.length - off < 8 then none
    else
      match mp4_parse_box_header (d.drop off) with
      | .error _ => none
      | .ok h =>
        if h.btype = btype then some (off, h.size)
        else if d.length - off < h.size then none
        else findBoxLoop d btype (off + h.size) fuel

/-- `mp4_find_box` (mp4_container.c:106): returns the offset and size of the
first top-level box of the requested type, or `none`. -/
def mp4_find_box (d : List Nat) (btype : Nat) : Option (Nat × Nat) :=
  findBoxLoop d btype 0 (d.length + 1)

/-- The fixed major-brand allow-list of `mp4_validate_ftyp_box`
(mp4_container.c:95): isom, mp41, mp42, M4A , M4B . -/
def SUPPORTED_BRANDS : List Nat :=
  [0x69736F6D, 0x6D703431, 0x6D703432, 0x4D344120, 0x4D344220]

/-- `mp4_validate_ftyp_box` (mp4_container.c:75). -/
def mp4_validate_ftyp_box (d : List Nat) : Except SonixErr Unit :=
  if d.length < 16 then .error .invalidData
  else
    match mp4_parse_box_header d with
    | .error e => .error e
    | .ok h =>
      if h.btype ≠ BOX_TYPE_FTYP then .error .mp4ContainerInvalid
      else if readBE32 d h.header_size ∈ SUPPORTED_BRANDS then .ok ()
      else .error .mp4UnsupportedCodec

/-- `mp4_parse_mdhd_box` (mp4_container.c:136).  The C function fills the
out-struct only on success; the initial struct value is threaded so error
paths demonstrably leave it untouched. -/
def mp4_parse_mdhd_box (d : List Nat) (mdhd0 : Mp4MediaHeader) :
    Except SonixErr Unit × Mp4MediaHeader :=
  if d.length < 24 then (.error .invalidData, mdhd0)
  else
    match mp4_parse_box_header d with
    | .error e => (.error e, mdhd0)
    | .ok h =>
      if h.btype ≠ BOX_TYPE_MDHD then (.error .mp4ContainerInvalid, mdhd0)
      else
        let b := h.header_size
        let version := byteAt d b
        if version = 0 then
          if h.size < b + 20 then (.error .invalidData, mdhd0)
          else (.ok (), ⟨readBE32 d (b + 4), readBE32 d (b + 8),
                         readBE32 d (b + 12), readBE32 d (b + 16)⟩)
        else if version = 1 then
          if h.size < b + 32 then (.error .invalidData, mdhd0)
          else (.ok (), ⟨readBE64 d (b + 4), readBE64 d (b + 12),
                         readBE32 d (b + 20), readBE64 d (b + 24)⟩)
        else (.error .mp4ContainerInvalid, mdhd0)

/-- `mp4_parse_hdlr_box` (mp4_container.c:179). -/
def mp4_parse_hdlr_box (d : List Nat) : Except SonixErr Mp4HandlerReference :=
  if d.length < 24 then .error .invalidData
  else
    match mp4_parse_box_header d with
    | .error e => .error e
    | .ok h =>
      if h.btype ≠ BOX_TYPE_HDLR then .error .mp4ContainerInvalid
      else
        let ht := readBE32 d (h.header_size + 8)
        .ok ⟨ht, ht = HANDLER_TYPE_SOUN⟩

/-- `mp4_parse_stsd_box` (mp4_container.c:205), with the out-struct threaded:
on every error path the C function has not yet written any field. -/
def mp4_parse_stsd_box (d : List Nat) (stsd0 : Mp4SampleDescription) :
    Except SonixErr Unit × Mp4SampleDescription :=
  if d.length < 16 then (.error .invalidData, stsd0)
  else
    match mp4_parse_box_header d with
    | .error e => (.error e, stsd0)
    | .ok h =>
      if h.btype ≠ BOX_TYPE_STSD then (.error .mp4ContainerInvalid, stsd0)
      else
        let entry_count := readBE32 d (h.header_size + 4)
        if entry_count = 0 then (.error .mp4NoAudioTrack, stsd0)
        else
          let entryOff := h.header_size + 8
          if d.length < entryOff + 16 then (.error .invalidData, stsd0)
          else
            let entry_size := readBE32 d entryOff
            let codec_type := readBE32 d (entryOff + 4)
            let s1 := { stsd0 with
                        codec_type := codec_type
                        is_supported := codec_type = CODEC_TYPE_MP4A }
            if s1.is_supported ∧ 36 ≤ entry_size then
              (.ok (), { s1 with
                         channels := readBE16 d (entryOff + 24)
                         sample_size := readBE16 d (entryOff + 26)
                         sample_rate := readBE32 d (entryOff + 32) / 2 ^ 16 })
            else (.ok (), s1)

/-- `mp4_parse_sample_table` (mp4_container.c:254).  The C function memsets
the out-struct and then always returns `SONIX_OK` (given non-null arguments),
so it is modelled as a total function to the table. -/
def mp4_parse_sample_table (d : List Nat) : Mp4SampleTable :=
  let t0 : Mp4SampleTable := ⟨0, 0, 0, false, false⟩
  let t1 :=
    match mp4_find_box d BOX_TYPE_STSZ with
    | none => t0
    | some (off, sz) =>
      match mp4_parse_box_header ((d.drop off).take sz) with
      | .error _ => t0
      | .ok h =>
        let base := off + h.header_size
        let default_size := readBE32 d (base + 4)
        let count := readBE32 d (base + 8)
        if default_size = 0 ∧ 0 < count then
          { t0 with
            sample_count := count
            has_sample_sizes := true }
        else
          { t0 with
            sample_count := count
            default_sample_size := default_size
            has_sample_sizes := true }
  let stcoFound :=
    match mp4_find_box d BOX_TYPE_STCO with
    | some r => some r
    | none => mp4_find_box d BOX_TYPE_CO64
  match stcoFound with
  | none => t1
  | some (off, sz) =>
    match mp4_parse_box_header ((d.drop off).take sz) with
    | .error _ => t1
    | .ok h =>
      { t1 with
        chunk_count := readBE32 d (off + h.header_size + 4)
        has_chunk_offsets := true }

/-- The per-`trak` body of the scan loop in `mp4_find_audio_track`
(mp4_container.c:332-402): takes the audio-track struct accumulated so far
and the trak box content (after the trak header), returns the updated struct
and whether this trak was accepted.  Mirrors the C write order: `track_id`
and the media header are written as soon as the handler reports audio, before
the minf/stbl lookups that can still reject the trak. -/
def trakStep (track0 : Mp4AudioTrack) (tc : List Nat) : Mp4AudioTrack × Bool :=
  match mp4_find_box tc BOX_TYPE_MDIA with
  | none => (track0, false)
  | some (moff, msz) =>
    let mdiaWin := (tc.drop moff).take msz
    match mp4_parse_box_header mdiaWin with
    | .error _ => (track0, false)
    | .ok mh =>
      let mdiaContent := mdiaWin.drop mh.header_size
      match mp4_find_box mdiaContent BOX_TYPE_HDLR with
      | none => (track0, false)
      | some (hoff, hsz) =>
        match mp4_parse_hdlr_box ((mdiaContent.drop hoff).take hsz) with
        | .error _ => (track0, false)
        | .ok hd =>
          if ¬ hd.is_audio then (track0, false)
          else
            let t1 := { track0 with track_id := 1 }
            let t2 :=
              match mp4_find_box mdiaContent BOX_TYPE_MDHD with
              | none => t1
              | some (doff, dsz) =>
                { t1 with media_header :=
                    (mp4_parse_mdhd_box ((mdiaContent.drop doff).take dsz)
                      t1.media_header).2 }
            match mp4_find_box mdiaContent BOX_TYPE_MINF with
            | none => (t2, false)
            | some (foff, fsz) =>
              let minfWin := (mdiaContent.drop foff).take fsz
              match mp4_parse_box_header minfWin with
              | .error _ => (t2, false)
              | .ok fh =>
                let minfContent := minfWin.drop fh.header_size
                match mp4_find_box minfContent BOX_TYPE_STBL with
                | none => (t2, false)
                | some (soff, ssz) =>
                  let stblWin := (minfContent.drop soff).take ssz
                  match mp4_parse_box_header stblWin with
                  | .error _ => (t2, false)
                  | .ok sh =>
                    let stblContent := stblWin.drop sh.header_size
                    let t3 :=
                      match mp4_find_box stblContent BOX_TYPE_STSD with
                      | none => t2
                      | some (xoff, xsz) =>
                        { t2 with sample_description :=
                            (mp4_parse_stsd_box ((stblContent.drop xoff).take xsz)
                              t2.sample_description).2 }
                    ({ t3 with
                       sample_table := mp4_parse_sample_table stblContent
                       is_valid := true }, true)

/-- The `trak` scan loop of `mp4_find_audio_track` (mp4_container.c:325-411),
fuelled; `off` is the cursor into the moov window `d`. -/
def findAudioLoop (d : List Nat) : Nat → Nat → Mp4AudioTrack →
    Except SonixErr Mp4AudioTrack
  | 0, _, _ => .error .mp4NoAudioTrack
  | fuel + 1, off, track =>
    if d.length - off < 8 then .error .mp4NoAudioTrack
    else
      match mp4_find_box (d.drop off) BOX_TYPE_TRAK with
      | none => .error .mp4NoAudioTrack
      | some (toff, tsz) =>
        let trakAbs := off + toff
        let trakWin := (d.drop trakAbs).take tsz
        match mp4_parse_box_header trakWin with
        | .error _ => .error .mp4NoAudioTrack
        | .ok th =>
          match trakStep track (trakWin.drop th.header_size) with
          | (track1, true) => .ok track1
          | (track1, false) =>
            if d.length - off < tsz then .error .mp4NoAudioTrack
            else findAudioLoop d fuel (trakAbs + tsz) track1

/-- `mp4_find_audio_track` (mp4_container.c:304): parses the moov header and
scans its children for the first acceptable audio trak. -/
def mp4_find_audio_track (d : List Nat) : Except SonixErr Mp4AudioTrack :=
  let track0 : Mp4AudioTrack := ⟨0, ⟨0, 0, 0, 0⟩, ⟨0, false, 0, 0, 0⟩,
                                 ⟨0, 0, 0, false, false⟩, false⟩
  match mp4_parse_box_header d with
  | .error _ => .error .mp4ContainerInvalid
  | .ok mh => findAudioLoop d (d.length + 1) mh.header_size track0

/-- `mp4_validate_container` (mp4_container.c:416). -/
def mp4_validate_container (d : List Nat) : Except SonixErr Unit :=
  if d.length < 32 then .error .invalidData
  else
    match mp4_find_box d BOX_TYPE_FTYP with
    | none => .error .mp4ContainerInvalid
    | some (foff, fsz) =>
      match mp4_validate_ftyp_box ((d.drop foff).take fsz) with
      | .error e => .error e
      | .ok _ =>
        match mp4_find_box d BOX_TYPE_MOOV with
        | none => .error .mp4ContainerInvalid
        | some (moff, msz) =>
          match mp4_find_audio_track ((d.drop moff).take msz) with
          | .error e => .error e
          | .ok track =>
            if ¬ track.is_valid ∨ ¬ track.sample_description.is_supported then
              .error .mp4UnsupportedCodec
            else .ok ()

/-! ### Signature detector (sonix_native.c:56) -/

/-- ID3 tag signature test of sonix_native.c:65 (`data[0..2] = "ID3"`). -/
def id3Sig (d : List Nat) : Bool :=
  byteAt d 0 = 0x49 ∧ byteAt d 1 = 0x44 ∧ byteAt d 2 = 0x33

/-- MP3 frame-sync test of sonix_native.c:71 (`(data[0]<<8|data[1]) & 0xFFE0
= 0xFFE0`). -/
def mp3SyncSig (d : List Nat) : Bool := readBE16 d 0 &&& 0xFFE0 = 0xFFE0

/-- RIFF/WAVE signature test of sonix_native.c:79. -/
def wavSig (d : List Nat) : Bool :=
  byteAt d 0 = 0x52 ∧ byteAt d 1 = 0x49 ∧ byteAt d 2 = 0x46 ∧ byteAt d 3 = 0x46 ∧
  byteAt d 8 = 0x57 ∧ byteAt d 9 = 0x41 ∧ byteAt d 10 = 0x56 ∧ byteAt d 11 = 0x45

/-- fLaC signature test of sonix_native.c:87. -/
def flacSig (d : List Nat) : Bool :=
  byteAt d 0 = 0x66 ∧ byteAt d 1 = 0x4C ∧ byteAt d 2 = 0x61 ∧ byteAt d 3 = 0x43

/-- OggS signature test of sonix_native.c:94. -/
def oggSig (d : List Nat) : Bool :=
  byteAt d 0 = 0x4F ∧ byteAt d 1 = 0x67 ∧ byteAt d 2 = 0x67 ∧ byteAt d 3 = 0x53

/-- `sonix_detect_format` (sonix_native.c:56), with the C branch structure —
including its redundant inner size guards — kept intact.  The returned value
is a pure function of the bytes (the C global error message slot is outside
this model). -/
def sonix_detect_format (d : List Nat) : Nat :=
  if d.length < 4 then SONIX_FORMAT_UNKNOWN
  else if 3 ≤ d.length ∧ id3Sig d then SONIX_FORMAT_MP3
  else if 2 ≤ d.length ∧ mp3SyncSig d then SONIX_FORMAT_MP3
  else if 12 ≤ d.length ∧ wavSig d then SONIX_FORMAT_WAV
  else if 4 ≤ d.length ∧ flacSig d then SONIX_FORMAT_FLAC
  else if 4 ≤ d.length ∧ oggSig d then SONIX_FORMAT_OGG
  else SONIX_FORMAT_UNKNOWN

/-! ### Chunked decoder state, seek estimator (sonix_native.c:1050) -/

/-- The fields of `struct SonixChunkedDecoder` (sonix_native.c:28) that the
seek path reads and writes.  `has_file_handle` models `file_handle != NULL`;
the backend-union decoder state is owned by the external codec collaborators
and carries no information the seek path uses. -/
structure SonixChunkedDecoderS where
  format : Nat
  has_file_handle : Bool
  file_size : Nat
  current_position : Nat
  sample_rate : Nat
  channels : Nat
  properties_initialized : Bool
deriving DecidableEq, Repr

/-- The byte-position estimate of `sonix_seek_to_time`'s MP3/FLAC branches:
the C computes `(uint64_t)((double)time_ms / 1000.0 * file_size)`.  IEEE
double-precision arithmetic is not formalised in this development, so the
estimate enters the model as a parameter of this type; theorems constrain
it only through `SeekEstimateExactOnIntegers`, a property the C expression
has. -/
def SeekEstimate : Type := Nat → Nat → Nat

/-- The property of the C estimate expression that the theorems use: for
`time_ms = 1000 * k` with `k < 2^32`, the correctly rounded IEEE division
`(double)time_ms / 1000.0` is exactly the representable integer `k`, and
when additionally `k * file_size < 2^53` the correctly rounded product is
the exactly representable `k * file_size`, so the `uint64_t` cast yields
exactly `k * file_size`.  Outside this regime the double computation may
round and is not pinned down by the model. -/
def SeekEstimateExactOnIntegers (est : SeekEstimate) : Prop :=
  ∀ k fs, k < 2 ^ 32 → k * fs < 2 ^ 53 → est (1000 * k) fs = k * fs

/-- An estimate function satisfying `SeekEstimateExactOnIntegers`, used to
instantiate closed statements: it agrees with the C's double computation
everywhere those statements evaluate it (the exact regime above). -/
def exactOnIntegersEstimate : SeekEstimate := fun time_ms fs => time_ms * fs / 1000

/-- `sonix_seek_to_time` (sonix_native.c:1050), parameterised by the
byte-position estimate `est` standing for the C's double expression (see
`SeekEstimate`).  The branch and state logic is translated from the C: the
MP3 branch (sonix_native.c:1060-1084) and the FLAC branch (1111-1132) use
the identical estimate, with no safety margin subtracted and no
end-of-source clamp between the estimate and the stored position; `fseek`
on a regular file succeeds even past end-of-file, so repositioning itself
is modelled as always succeeding. -/
def sonix_seek_to_time (est : SeekEstimate) (dec : SonixChunkedDecoderS)
    (time_ms : Nat) : Except SonixErr SonixChunkedDecoderS :=
  if ¬ dec.has_file_handle then .error .invalidData
  else if dec.format = SONIX_FORMAT_MP3 ∨ dec.format = SONIX_FORMAT_FLAC then
    if dec.properties_initialized ∧ 0 < dec.sample_rate then
      let estimated_position := est time_ms dec.file_size
      .ok { dec with current_position := estimated_position }
    else .error .invalidData
  else if dec.format = SONIX_FORMAT_WAV then
    if dec.properties_initialized ∧ 0 < dec.sample_rate then
      let bytes_per_sample := 2 * dec.channels
      let target_sample := time_ms * dec.sample_rate / 1000
      let target_byte := 44 + target_sample * bytes_per_sample
      .ok { dec with current_position := target_byte }
    else .error .invalidData
  else if dec.format = SONIX_FORMAT_OGG then .error .decodeFailed
  else .error .invalidFormat

/-! ### Resource release (sonix_native.c:1187, 1225) -/

/-- The release operations `sonix_cleanup_chunked_decoder` can perform, in
the order the C performs them. -/
inductive ReleaseAction where
  | close_flac_decoder
  | uninit_wav_decoder
  | fclose_file
  | free_file_path
  | free_decoder_struct
deriving DecidableEq, Repr

/-- The allocation state a `SonixChunkedDecoder` handle points at (which
union member is live, whether the file handle and path are held). -/
structure DecoderResources where
  format : Nat
  flac_decoder_open : Bool
  file_handle_open : Bool
  file_path_allocated : Bool
deriving DecidableEq, Repr

/-- Body of `sonix_cleanup_chunked_decoder` (sonix_native.c:1187) for a
non-null handle: the sequence of release operations executed. -/
def cleanup_actions (s : DecoderResources) : List ReleaseAction :=
  (if s.format = SONIX_FORMAT_FLAC then
     (if s.flac_decoder_open then [.close_flac_decoder] else [])
   else if s.format = SONIX_FORMAT_WAV then [.uninit_wav_decoder]
   else [])
  ++ (if s.file_handle_open then [.fclose_file] else [])
  ++ (if s.file_path_allocated then [.free_file_path] else [])
  ++ [.free_decoder_struct]

/-- `sonix_cleanup_chunked_decoder` (sonix_native.c:1187): `none` models a
NULL handle.  The C has no guard other than the NULL check — a non-null
pointer is released unconditionally, whether or not it is still live. -/
def sonix_cleanup_chunked_decoder : Option DecoderResources → List ReleaseAction
  | none => []
  | some s => cleanup_actions s

/-- The allocation state a `SonixChunkResult` points at: which chunk entries
hold a samples allocation, and whether the error message is allocated. -/
structure ChunkResultResources where
  chunk_samples_allocated : List Bool
  error_message_allocated : Bool
deriving DecidableEq, Repr

/-- The release operations of `sonix_free_chunk_result`. -/
inductive ChunkFreeAction where
  | free_chunk_samples (index : Nat)
  | free_chunks_array
  | free_error_message
  | free_result_struct
deriving DecidableEq, Repr

/-- `sonix_free_chunk_result` (sonix_native.c:1225): `none` models a NULL
result pointer.  `chunk_samples_allocated = []` models `chunks == NULL`
(then no per-chunk free and no array free happens). -/
def sonix_free_chunk_result : Option ChunkResultResources → List ChunkFreeAction
  | none => []
  | some r =>
    (if r.chunk_samples_allocated.isEmpty then []
     else
       ((List.range r.chunk_samples_allocated.length).filterMap fun i =>
         if r.chunk_samples_allocated.getD i false then
           some (.free_chunk_samples i) else none)
       ++ [.free_chunks_array])
    ++ (if r.error_message_allocated then [.free_error_message] else [])
    ++ [.free_result_struct]

/-! ### MP3 decode: whole-file and chunked (sonix_native.c:381, 896)

The unit decoder `mp3dec_decode_frame` comes from the bundled minimp3
library, which is not part of src/.  Modelled from the spec: the Decode
Backend collaborator contract `decode_one_unit(bytes) ->
(samples_produced, bytes_consumed, status)` (spec §2 item 3, §1).  The
orchestrating loops below are translated from the C; only `unitDecode` is
the spec-modelled collaborator. -/

/-- `mp3dec_frame_info_t`: the fields the orchestrator reads. -/
structure Mp3FrameInfo where
  frame_bytes : Nat
  channels : Nat
  hz : Nat
deriving DecidableEq, Repr

/-- Result of one unit-decode call.  `samples` is the per-channel sample
count (minimp3 convention); `need_more_data` is the spec-level status
classification of a zero-consumption failure — the C interface exposes no
such status, so the orchestrator cannot observe this field. -/
structure UnitDecodeResult where
  samples : Nat
  info : Mp3FrameInfo
  need_more_data : Bool
deriving DecidableEq, Repr

/-- Modelled from the spec: the Decode Backend collaborator
(`decode_one_unit`), standing in for minimp3's `mp3dec_decode_frame`, whose
source is not under src/. -/
def Backend : Type := List Nat → UnitDecodeResult

/-- The pre-decode quick sync test of decode_mp3 (sonix_native.c:413-421),
applied to the bytes from the cursor on: frame-sync bit pattern or an "ID"
tag start. -/
def syncOrId3Start (l : List Nat) : Bool :=
  readBE16 l 0 &&& 0xFFE0 = 0xFFE0 ∨ (byteAt l 0 = 0x49 ∧ byteAt l 1 = 0x44)

/-- `skip_id3v2_tag` (sonix_native.c:363). -/
def skip_id3v2_tag (d : List Nat) : Nat :=
  if d.length < 10 then 0
  else if byteAt d 0 = 0x49 ∧ byteAt d 1 = 0x44 ∧ byteAt d 2 = 0x33 then
    10 + ((byteAt d 6 &&& 0x7F) * 2 ^ 21 + (byteAt d 7 &&& 0x7F) * 2 ^ 14 +
          (byteAt d 8 &&& 0x7F) * 2 ^ 7 + (byteAt d 9 &&& 0x7F))
  else 0

/-- The decode loop of `decode_mp3` (sonix_native.c:407-473), fuelled.
State `(total, sr, ch)`: interleaved samples accumulated, sample rate and
channel count latched from the first successful frame. -/
def decodeMp3Loop (u : Backend) (d : List Nat) :
    Nat → Nat → Nat × Nat × Nat → Nat × Nat × Nat
  | 0, _, st => st
  | fuel + 1, offset, (total, sr, ch) =>
    if d.length ≤ offset then (total, sr, ch)
    else if 2 ≤ d.length - offset ∧ ¬ syncOrId3Start (d.drop offset) then
      -- not frame sync and not ID3: advance one byte and continue scanning
      decodeMp3Loop u d fuel (offset + 1) (total, sr, ch)
    else
      let r := u (d.drop offset)
      if r.samples = 0 then
        if r.info.frame_bytes = 0 then
          decodeMp3Loop u d fuel (offset + 1) (total, sr, ch)
        else
          decodeMp3Loop u d fuel (offset + r.info.frame_bytes) (total, sr, ch)
      else
        let sr1 := if sr = 0 then r.info.hz else sr
        let ch1 := if sr = 0 then r.info.channels else ch
        decodeMp3Loop u d fuel (offset + r.info.frame_bytes)
          (total + r.samples * r.info.channels, sr1, ch1)

/-- `decode_mp3` (sonix_native.c:381), reduced to the data the refinement
claim observes: `some total_samples` on success (the sample positions the
produced AudioBuffer covers are `0, …, total_samples - 1`), `none` when the
C returns NULL ("no valid frames found"). -/
def decode_mp3 (u : Backend) (d : List Nat) : Option Nat :=
  let st := decodeMp3Loop u d d.length (skip_id3v2_tag d) (0, 0, 0)
  if st.1 = 0 ∨ st.2.1 = 0 ∨ st.2.2 = 0 then none else some st.1

/-- `SonixFileChunk` (sonix_native.h:49). -/
structure SonixFileChunk where
  data : List Nat
  position : Nat
  is_last : Bool
deriving DecidableEq, Repr

/-- `SonixAudioChunk` (sonix_native.h:56), sans the sample payload. -/
structure SonixAudioChunk where
  sample_count : Nat
  start_sample : Nat
  is_last : Bool
deriving DecidableEq, Repr

/-- The frame loop of `process_mp3_chunk` (sonix_native.c:927-1008), fuelled.
`pos` is `current_sample_position`, which the C initializes to 0 at every
call.  Emits one AudioChunk per decoded frame; `start_sample` advances by
the per-channel sample count while `sample_count` is the interleaved
total, exactly as in the C. -/
def processMp3Loop (u : Backend) (d : List Nat) :
    Nat → Nat → Nat → List SonixAudioChunk
  | 0, _, _ => []
  | fuel + 1, offset, pos =>
    if d.length ≤ offset then []
    else
      let r := u (d.drop offset)
      if r.samples = 0 then
        if r.info.frame_bytes = 0 then processMp3Loop u d fuel (offset + 1) pos
        else processMp3Loop u d fuel (offset + r.info.frame_bytes) pos
      else
        ⟨r.samples * r.info.channels, pos, false⟩ ::
          processMp3Loop u d fuel (offset + r.info.frame_bytes) (pos + r.samples)

/-- Sets `is_last` on the final element (sonix_native.c:1011-1014). -/
def markLast : List SonixAudioChunk → List SonixAudioChunk
  | [] => []
  | [c] => [{ c with is_last := true }]
  | c :: rest => c :: markLast rest

/-- `process_mp3_chunk` (sonix_native.c:896): the emitted AudioChunks for
one `sonix_process_file_chunk` call. -/
def process_mp3_chunk (u : Backend) (chunk : SonixFileChunk) :
    List SonixAudioChunk :=
  let cs := processMp3Loop u chunk.data chunk.data.length 0 0
  if chunk.is_last then markLast cs else cs

/-- Cursor advance of one `process_mp3_chunk` loop iteration at `offset`
(sonix_native.c:941-950, 1007). -/
def stepAdvance (u : Backend) (d : List Nat) (offset : Nat) : Nat :=
  let r := u (d.drop offset)
  if r.samples = 0 ∧ r.info.frame_bytes = 0 then 1 else r.info.frame_bytes

/-- The multiset of absolute sample positions covered by one AudioChunk:
`start_sample, …, start_sample + sample_count - 1`. -/
def chunkCovered (c : SonixAudioChunk) : Multiset Nat :=
  (Multiset.range c.sample_count).map (c.start_sample + ·)

/-- Sample positions covered by all AudioChunks of a list. -/
def coveredPositions (cs : List SonixAudioChunk) : Multiset Nat :=
  (cs.map chunkCovered).sum

/-- Sample positions covered across repeated `process_chunk` calls on a
sequence of FileChunks. -/
def chunkedPositions (u : Backend) (chunks : List SonixFileChunk) : Multiset Nat :=
  (chunks.map fun c => coveredPositions (process_mp3_chunk u c)).sum

/-- Sample positions produced by `decode_whole` (`sonix_decode_audio` →
`decode_mp3`) on the full bytes. -/
def wholePositions (u : Backend) (d : List Nat) : Multiset Nat :=
  match decode_mp3 u d with
  | none => 0
  | some total => Multiset.range total

/-! ### Concrete inputs used by counterexamples and witnesses -/

/-- A well-formed 8-byte box of type `free` — too small for
`mp4_validate_ftyp_box`'s 16-byte guard. -/
def freeBox8 : List Nat := [0, 0, 0, 8, 0x66, 0x72, 0x65, 0x65]

/-- The 32-byte `ftyp` box with major brand `isom` from
mp4_container_test.c. -/
def ftypIsomBox : List Nat :=
  [0x00, 0x00, 0x00, 0x20, 0x66, 0x74, 0x79, 0x70,
   0x69, 0x73, 0x6F, 0x6D, 0x00, 0x00, 0x02, 0x00,
   0x69, 0x73, 0x6F, 0x6D, 0x69, 0x73, 0x6F, 0x32,
   0x6D, 0x70, 0x34, 0x31, 0x6D, 0x70, 0x34, 0x32]

/-- A box using the 64-bit size variant: 32-bit size field 1, type `test`,
64-bit size 24, 8 payload bytes. -/
def largeSizeBox : List Nat :=
  [0, 0, 0, 1, 0x74, 0x65, 0x73, 0x74,
   0, 0, 0, 0, 0, 0, 0, 24, 0, 0, 0, 0, 0, 0, 0, 0]

/-- The first 8 bytes of `largeSizeBox`: the 64-bit size variant with fewer
than 16 bytes available. -/
def largeSizeBoxTruncated : List Nat := [0, 0, 0, 1, 0x74, 0x65, 0x73, 0x74]

/-- A 16-byte `stsd` box whose entry-count field is zero. -/
def stsdZeroEntries : List Nat :=
  [0, 0, 0, 16, 0x73, 0x74, 0x73, 0x64, 0, 0, 0, 0, 0, 0, 0, 0]

/-- An empty `stbl` box (size 8, no children). -/
def stblDemo : List Nat := [0, 0, 0, 8, 0x73, 0x74, 0x62, 0x6C]

/-- A `minf` box containing only the empty `stbl`. -/
def minfDemo : List Nat := [0, 0, 0, 16, 0x6D, 0x69, 0x6E, 0x66] ++ stblDemo

/-- A 24-byte `hdlr` box whose handler type is `soun` (audio). -/
def hdlrDemo : List Nat :=
  [0, 0, 0, 24, 0x68, 0x64, 0x6C, 0x72, 0, 0, 0, 0, 0, 0, 0, 0,
   0x73, 0x6F, 0x75, 0x6E, 0, 0, 0, 0]

/-- A `mdia` box containing the audio `hdlr` and the `minf`/`stbl` chain but
NO `mdhd` box and NO `stsd` box. -/
def mdiaDemo : List Nat := [0, 0, 0, 48, 0x6D, 0x64, 0x69, 0x61] ++ (hdlrDemo ++ minfDemo)

/-- A `trak` box wrapping `mdiaDemo`. -/
def trakDemo : List Nat := [0, 0, 0, 56, 0x74, 0x72, 0x61, 0x6B] ++ mdiaDemo

/-- A `moov` box whose single trak has an audio handler and a minf/stbl
chain but neither an `mdhd` nor an `stsd` box. -/
def moovDemo : List Nat := [0, 0, 0, 64, 0x6D, 0x6F, 0x6F, 0x76] ++ trakDemo

/-- The zero-initialised audio-track struct (`memset` in
`mp4_find_audio_track`). -/
def track0 : Mp4AudioTrack :=
  ⟨0, ⟨0, 0, 0, 0⟩, ⟨0, false, 0, 0, 0⟩, ⟨0, 0, 0, false, false⟩, false⟩

/-- The track `mp4_find_audio_track` produces for `moovDemo`: valid, with
the media header and sample description left at their zero values. -/
def moovDemoTrack : Mp4AudioTrack :=
  ⟨1, ⟨0, 0, 0, 0⟩, ⟨0, false, 0, 0, 0⟩, ⟨0, 0, 0, false, false⟩, true⟩

/-- A toy Decode Backend satisfying the spec's collaborator contract: a unit
is 4 bytes starting with the frame-sync pattern FF E0, mono, 44100 Hz,
2 samples per channel; anything else decodes to nothing. -/
def toyDec : Backend := fun l =>
  if 4 ≤ l.length ∧ byteAt l 0 = 0xFF ∧ byteAt l 1 = 0xE0 then
    ⟨2, ⟨4, 1, 44100⟩, false⟩
  else ⟨0, ⟨0, 0, 0⟩, false⟩

/-- A Decode Backend reporting a need-more-data condition: zero samples,
zero bytes consumed, status `need_more_data`. -/
def nmdDec : Backend := fun _ => ⟨0, ⟨0, 0, 0⟩, true⟩

/-- Two toy frames, as one whole-file buffer. -/
def mp3DemoBytes : List Nat := [0xFF, 0xE0, 0, 0, 0xFF, 0xE0, 0, 0]

/-- First half of `mp3DemoBytes` as a FileChunk (split at the frame
boundary, not inside any header bytes). -/
def chunkA : SonixFileChunk := ⟨[0xFF, 0xE0, 0, 0], 0, false⟩

/-- Second half of `mp3DemoBytes` as the final FileChunk. -/
def chunkB : SonixFileChunk := ⟨[0xFF, 0xE0, 0, 0], 4, true⟩

/-- Decoder-state value used by the seek theorems: an initialized MP3
chunked decoder over a 100-byte source. -/
def seekDemoDecoder : SonixChunkedDecoderS :=
  ⟨SONIX_FORMAT_MP3, true, 100, 0, 44100, 2, true⟩

/-- The acceptance condition the amended C6 claim ascribes to the trak scan:
the mdia → hdlr(audio) → minf → stbl chain must be discoverable and
parsable; the mdhd and stsd sub-parses are not consulted.  Stated
separately from `trakStep` so the theorem relating the two is the
mdhd/stsd-independence of the scan. -/
def trakAcceptanceSpec (tc : List Nat) : Bool :=
  match mp4_find_box tc BOX_TYPE_MDIA with
  | none => false
  | some (moff, msz) =>
    let mdiaWin := (tc.drop moff).take msz
    match mp4_parse_box_header mdiaWin with
    | .error _ => false
    | .ok mh =>
      let mdiaContent := mdiaWin.drop mh.header_size
      match mp4_find_box mdiaContent BOX_TYPE_HDLR with
      | none => false
      | some (hoff, hsz) =>
        match mp4_parse_hdlr_box ((mdiaContent.drop hoff).take hsz) with
        | .error _ => false
        | .ok hd =>
          if ¬ hd.is_audio then false
          else
            match mp4_find_box mdiaContent BOX_TYPE_MINF with
            | none => false
            | some (foff, fsz) =>
              let minfWin := (mdiaContent.drop foff).take fsz
              match mp4_parse_box_header minfWin with
              | .error _ => false
              | .ok fh =>
                match mp4_find_box (minfWin.drop fh.header_size) BOX_TYPE_STBL with
                | none => false
                | some (soff, ssz) =>
                  match mp4_parse_box_header
                      ((((minfWin.drop fh.header_size)).drop soff).take ssz) with
                  | .error _ => false
                  | .ok _ => true

/-- Equality of `Except` results is decidable when both components are;
stated here so concrete runs of the embedded functions can be settled by
`decide`. -/
instance exceptDecEq (ε α : Type) [DecidableEq ε] [DecidableEq α] :
    DecidableEq (Except ε α) := fun x y =>
  match x, y with
  | .error a, .error b =>
    if h : a = b then isTrue (by rw [h]) else isFalse (by simp [h])
  | .ok a, .ok b =>
    if h : a = b then isTrue (by rw [h]) else isFalse (by simp [h])
  | .error _, .ok _ => isFalse (by simp)
  | .ok _, .error _ => isFalse (by simp)

/-- The box size `mp4_parse_box_header` reads from a window: the 64-bit
size when the 32-bit field is 1, the 32-bit field otherwise. -/
def mp4SizeOf (d : List Nat) : Nat :=
  if readBE32 d 0 = 1 then readBE64 d 8 else readBE32 d 0

/-- The header size `mp4_parse_box_header` assigns: 16 for the 64-bit size
variant, 8 otherwise. -/
def mp4HeaderSizeOf (d : List Nat) : Nat := if readBE32 d 0 = 1 then 16 else 8

/-! ## Helper lemmas -/

theorem byteAt_take (l : List Nat) (n i : Nat) (h : i < n) :
    byteAt (l.take n) i = byteAt l i := by
  simp [byteAt, List.getD_eq_getElem?_getD, List.getElem?_take, h]

theorem readBE16_take (l : List Nat) (n i : Nat) (h : i + 2 ≤ n) :
    readBE16 (l.take n) i = readBE16 l i := by
  unfold readBE16
  rw [byteAt_take l n i (by omega), byteAt_take l n (i + 1) (by omega)]

theorem readBE32_take (l : List Nat) (n i : Nat) (h : i + 4 ≤ n) :
    readBE32 (l.take n) i = readBE32 l i := by
  unfold readBE32
  rw [byteAt_take l n i (by omega), byteAt_take l n (i + 1) (by omega),
    byteAt_take l n (i + 2) (by omega), byteAt_take l n (i + 3) (by omega)]

theorem readBE64_take (l : List Nat) (n i : Nat) (h : i + 8 ≤ n) :
    readBE64 (l.take n) i = readBE64 l i := by
  unfold readBE64
  rw [readBE32_take l n i (by omega), readBE32_take l n (i + 4) (by omega)]

/-- What a successful `mp4_parse_box_header` guarantees about the parsed
header and the window. -/
theorem parse_box_header_ok_facts {d : List Nat} {h : Mp4BoxHeader}
    (hp : mp4_parse_box_header d = .ok h) :
    8 ≤ d.length ∧ h.btype = readBE32 d 4 ∧ h.size ≤ d.length ∧
    ((h.header_size = 8 ∧ 8 ≤ h.size ∧ readBE32 d 0 = h.size ∧ readBE32 d 0 ≠ 1 ∧
       readBE32 d 0 ≠ 0) ∨
     (h.header_size = 16 ∧ 16 ≤ h.size ∧ readBE32 d 0 = 1 ∧ 16 ≤ d.length ∧
       h.size = readBE64 d 8)) := by
  simp only [mp4_parse_box_header] at hp
  split_ifs at hp with h1 h2 h3 h4 h5 h6 <;>
    simp only [Except.ok.injEq, reduceCtorEq] at hp
  · -- 64-bit size variant
    subst hp
    dsimp only
    push_neg at h4
    exact ⟨by omega, rfl, by omega, Or.inr ⟨rfl, by omega, h2, by omega, rfl⟩⟩
  · -- 32-bit size variant
    subst hp
    dsimp only
    push_neg at h6
    exact ⟨by omega, rfl, by omega, Or.inl ⟨rfl, by omega, rfl, h2, h5⟩⟩

/-- A successful header parse still succeeds, with the same result, when the
window is narrowed to exactly the box. -/
theorem parse_box_header_take {d : List Nat} {h : Mp4BoxHeader}
    (hp : mp4_parse_box_header d = .ok h) :
    mp4_parse_box_header (d.take h.size) = .ok h := by
  obtain ⟨hlen, hbt, hsl, hcase⟩ := parse_box_header_ok_facts hp
  have hlt : (d.take h.size).length = h.size := by
    simp [List.length_take]; omega
  rcases hcase with ⟨hh, hs8, hv, hne1, hne0⟩ | ⟨hh, hs16, hv1, hl16, hv⟩
  · simp only [mp4_parse_box_header, hlt,
      readBE32_take d h.size 0 (by omega), readBE32_take d h.size 4 (by omega)]
    rw [if_neg (by omega), if_neg (by omega), if_neg (by omega), if_neg (by omega)]
    cases h with
    | mk s b hs => simp_all
  · simp only [mp4_parse_box_header, hlt,
      readBE32_take d h.size 0 (by omega), readBE32_take d h.size 4 (by omega),
      readBE64_take d h.size 8 (by omega)]
    rw [if_neg (by omega), if_pos hv1, if_neg (by omega), if_neg (by omega)]
    cases h with
    | mk s b hs => simp_all

/-- What `mp4_find_box`'s scan loop guarantees when it reports a box. -/
theorem findBoxLoop_some_spec (d : List Nat) (t : Nat) :
    ∀ fuel off o sz, findBoxLoop d t off fuel = some (o, sz) →
      ∃ h, mp4_parse_box_header (d.drop o) = .ok h ∧ h.size = sz ∧ h.btype = t := by
  intro fuel
  induction fuel with
  | zero => intro off o sz hf; simp [findBoxLoop] at hf
  | succ n ih =>
    intro off o sz hf
    simp only [findBoxLoop] at hf
    split_ifs at hf with h1
    cases hparse : mp4_parse_box_header (d.drop off) with
    | error e => rw [hparse] at hf; simp at hf
    | ok h =>
      rw [hparse] at hf
      simp only at hf
      split_ifs at hf with h2 h3
      · simp only [Option.some.injEq, Prod.mk.injEq] at hf
        exact ⟨h, by rw [← hf.1]; exact hparse, hf.2, h2⟩
      · exact ih _ _ _ hf

/-- `mp4_find_box` reports only genuine boxes: the header parses at the
reported offset with the reported size and the requested type. -/
theorem mp4_find_box_some_spec {d : List Nat} {t o sz : Nat}
    (hf : mp4_find_box d t = some (o, sz)) :
    ∃ h, mp4_parse_box_header (d.drop o) = .ok h ∧ h.size = sz ∧ h.btype = t :=
  findBoxLoop_some_spec d t _ 0 o sz hf

/-- The window `(d.drop o).take sz` of a found box still parses to the same
header. -/
theorem mp4_find_box_window_parse {d : List Nat} {t o sz : Nat}
    (hf : mp4_find_box d t = some (o, sz)) :
    ∃ h, mp4_parse_box_header ((d.drop o).take sz) = .ok h ∧
      h.size = sz ∧ h.btype = t := by
  obtain ⟨h, hp, hsz, hbt⟩ := mp4_find_box_some_spec hf
  subst hsz
  exact ⟨h, parse_box_header_take hp, rfl, hbt⟩

/-- Every error exit of the trak scan loop is `mp4NoAudioTrack`. -/
theorem findAudioLoop_error_eq (d : List Nat) :
    ∀ fuel off track e, findAudioLoop d fuel off track = .error e →
      e = .mp4NoAudioTrack := by
  intro fuel
  induction fuel with
  | zero =>
    intro off track e hf
    simp only [findAudioLoop, Except.error.injEq] at hf
    exact hf.symm
  | succ n ih =>
    intro off track e hf
    simp only [findAudioLoop] at hf
    split_ifs at hf with h1
    · simp only [Except.error.injEq] at hf; exact hf.symm
    · cases hfb : mp4_find_box (d.drop off) BOX_TYPE_TRAK with
      | none => rw [hfb] at hf; simp only [Except.error.injEq] at hf; exact hf.symm
      | some p =>
        obtain ⟨toff, tsz⟩ := p
        rw [hfb] at hf
        simp only at hf
        cases hparse : mp4_parse_box_header ((d.drop (off + toff)).take tsz) with
        | error e2 =>
          rw [hparse] at hf; simp only [Except.error.injEq] at hf; exact hf.symm
        | ok th =>
          rw [hparse] at hf
          simp only at hf
          rcases hstep : trakStep track (((d.drop (off + toff)).take tsz).drop
              th.header_size) with ⟨t1, b⟩
          rw [hstep] at hf
          cases b with
          | true => simp at hf
          | false =>
            simp only at hf
            split_ifs at hf with h2
            · simp only [Except.error.injEq] at hf; exact hf.symm
            · exact ih _ _ _ hf

/-- `mp4_find_audio_track`, applied to a window produced by `mp4_find_box`,
can fail only with `mp4NoAudioTrack`. -/
theorem find_audio_track_error_on_found {d : List Nat} {t o sz : Nat}
    (hf : mp4_find_box d t = some (o, sz)) :
    ∀ e, mp4_find_audio_track ((d.drop o).take sz) = .error e →
      e = .mp4NoAudioTrack := by
  obtain ⟨h, hp, _, _⟩ := mp4_find_box_window_parse hf
  intro e he
  unfold mp4_find_audio_track at he
  rw [hp] at he
  exact findAudioLoop_error_eq _ _ _ _ _ he

/-! ## Claim theorems -/

/-- C4: `mp4_parse_box_header` reads a big-endian 32-bit size and FourCC;
a 32-bit size of 1 switches to a following big-endian 64-bit size with
`header_size` 16 and fails with InvalidData when fewer than 16 bytes are
available; a 32-bit size of 0 yields ContainerInvalid; and the parse
succeeds exactly when `header_size ≤ size ≤ available bytes` (with the size
fields readable). -/
theorem C4_parse_box_header_contract (d : List Nat) :
    (∀ h, mp4_parse_box_header d = .ok h →
       h.btype = readBE32 d 4 ∧ h.size = mp4SizeOf d ∧
       h.header_size = mp4HeaderSizeOf d) ∧
    (8 ≤ d.length → readBE32 d 0 = 1 → d.length < 16 →
       mp4_parse_box_header d = .error .invalidData) ∧
    (8 ≤ d.length → readBE32 d 0 = 0 →
       mp4_parse_box_header d = .error .mp4ContainerInvalid) ∧
    ((∃ h, mp4_parse_box_header d = .ok h) ↔
       8 ≤ d.length ∧ readBE32 d 0 ≠ 0 ∧ (readBE32 d 0 = 1 → 16 ≤ d.length) ∧
       mp4HeaderSizeOf d ≤ mp4SizeOf d ∧ mp4SizeOf d ≤ d.length) := by
  refine ⟨?_, ?_, ?_, ?_⟩
  · intro h hp
    obtain ⟨_, hbt, _, hcase⟩ := parse_box_header_ok_facts hp
    rcases hcase with ⟨hh, _, hv, hne1, _⟩ | ⟨hh, _, hv1, _, hv⟩
    · exact ⟨hbt, by rw [mp4SizeOf, if_neg hne1, hv], by rw [hh, mp4HeaderSizeOf, if_neg hne1]⟩
    · exact ⟨hbt, by rw [mp4SizeOf, if_pos hv1, ← hv], by rw [hh, mp4HeaderSizeOf, if_pos hv1]⟩
  · intro hl h1 hlt
    simp only [mp4_parse_box_header]
    rw [if_neg (by omega), if_pos h1, if_pos hlt]
  · intro hl h0
    simp only [mp4_parse_box_header]
    rw [if_neg (by omega), if_neg (by omega), if_pos h0]
  · constructor
    · rintro ⟨h, hp⟩
      obtain ⟨hl, _, hsl, hcase⟩ := parse_box_header_ok_facts hp
      rcases hcase with ⟨hh, hs8, hv, hne1, hne0⟩ | ⟨hh, hs16, hv1, hl16, hv⟩
      · refine ⟨hl, hne0, by omega, ?_, ?_⟩ <;>
          simp only [mp4SizeOf, mp4HeaderSizeOf, hne1, if_neg, ite_false] <;> omega
      · refine ⟨hl, by omega, fun _ => hl16, ?_, ?_⟩ <;>
          simp only [mp4SizeOf, mp4HeaderSizeOf, hv1, ite_true] <;> omega
    · rintro ⟨hl, hne0, h16, hhs, hsl⟩
      by_cases h1 : readBE32 d 0 = 1
      · rw [mp4SizeOf, if_pos h1] at hsl
        rw [mp4SizeOf, mp4HeaderSizeOf, if_pos h1, if_pos h1] at hhs
        refine ⟨⟨readBE64 d 8, readBE32 d 4, 16⟩, ?_⟩
        simp only [mp4_parse_box_header]
        rw [if_neg (by omega), if_pos h1, if_neg (by have := h16 h1; omega),
          if_neg (by omega)]
      · rw [mp4SizeOf, if_neg h1] at hsl
        rw [mp4SizeOf, mp4HeaderSizeOf, if_neg h1, if_neg h1] at hhs
        refine ⟨⟨readBE32 d 0, readBE32 d 4, 8⟩, ?_⟩
        simp only [mp4_parse_box_header]
        rw [if_neg (by omega), if_neg h1, if_neg hne0, if_neg (by omega)]

/-- C4 witness: the contract applied to a concrete 64-bit-size box and its
truncation to fewer than 16 bytes. -/
theorem C4_parse_box_header_contract_witness :
    mp4_parse_box_header largeSizeBoxTruncated = .error .invalidData ∧
    (∃ h, mp4_parse_box_header largeSizeBox = .ok h) := by
  refine ⟨(C4_parse_box_header_contract largeSizeBoxTruncated).2.1
    (by decide) (by decide) (by decide), ?_⟩
  exact (C4_parse_box_header_contract largeSizeBox).2.2.2.mpr (by decide)

/-- C5 counterexample: `freeBox8` is a well-formed 8-byte box whose type is
not `ftyp`, yet `mp4_validate_ftyp_box` reports InvalidData (its 16-byte
guard), not the ContainerInvalid the claim requires for every well-formed
non-ftyp box. -/
theorem C5_ftyp_counterexample :
    mp4_parse_box_header freeBox8 = .ok ⟨8, 0x66726565, 8⟩ ∧
    0x66726565 ≠ BOX_TYPE_FTYP ∧
    mp4_validate_ftyp_box freeBox8 = .error .invalidData ∧
    SonixErr.invalidData ≠ SonixErr.mp4ContainerInvalid := by decide

/-- C5 amended: for buffers of at least 16 bytes holding a well-formed box,
`mp4_validate_ftyp_box` succeeds iff the box type is `ftyp` and the major
brand is on the allow-list; other brands yield UnsupportedCodec and a
non-ftyp box type yields ContainerInvalid. -/
theorem C5_validate_ftyp_amended (d : List Nat) (h16 : 16 ≤ d.length)
    (h : Mp4BoxHeader) (hp : mp4_parse_box_header d = .ok h) :
    (h.btype ≠ BOX_TYPE_FTYP →
       mp4_validate_ftyp_box d = .error .mp4ContainerInvalid) ∧
    (h.btype = BOX_TYPE_FTYP → readBE32 d h.header_size ∈ SUPPORTED_BRANDS →
       mp4_validate_ftyp_box d = .ok ()) ∧
    (h.btype = BOX_TYPE_FTYP → readBE32 d h.header_size ∉ SUPPORTED_BRANDS →
       mp4_validate_ftyp_box d = .error .mp4UnsupportedCodec) := by
  refine ⟨fun hb => ?_, fun hb hm => ?_, fun hb hm => ?_⟩ <;>
    simp only [mp4_validate_ftyp_box] <;>
    rw [if_neg (by omega), hp]
  · simp [hb]
  · simp [hb, hm]
  · simp [hb, hm]

/-- C5 witness: the amended criterion applied to the repository test's
`isom`-branded ftyp box. -/
theorem C5_validate_ftyp_witness : mp4_validate_ftyp_box ftypIsomBox = .ok () := by
  have h := C5_validate_ftyp_amended ftypIsomBox (by decide)
    ⟨32, BOX_TYPE_FTYP, 8⟩ (by decide)
  exact h.2.1 rfl (by decide)

/-- C10: a well-formed `stsd` box whose entry-count field is zero makes
`mp4_parse_stsd_box` fail with NoAudioTrack (not InvalidData, not
ContainerInvalid), leaving the caller's sample-description struct exactly
as it was. -/
theorem C10_stsd_zero_entry_count (d : List Nat) (s0 : Mp4SampleDescription)
    (h : Mp4BoxHeader) (hp : mp4_parse_box_header d = .ok h)
    (ht : h.btype = BOX_TYPE_STSD) (hlen : 16 ≤ d.length)
    (hec : readBE32 d (h.header_size + 4) = 0) :
    mp4_parse_stsd_box d s0 = (.error .mp4NoAudioTrack, s0) ∧
    SonixErr.mp4NoAudioTrack ≠ SonixErr.invalidData ∧
    SonixErr.mp4NoAudioTrack ≠ SonixErr.mp4ContainerInvalid := by
  refine ⟨?_, by decide, by decide⟩
  simp only [mp4_parse_stsd_box]
  rw [if_neg (by omega), hp]
  simp [ht, hec]

/-- C10 witness: the zero-entry stsd box, with a sentinel initial struct
showing nothing was written. -/
theorem C10_stsd_zero_entry_count_witness :
    mp4_parse_stsd_box stsdZeroEntries ⟨7, true, 9, 9, 9⟩ =
      (.error .mp4NoAudioTrack, ⟨7, true, 9, 9, 9⟩) := by
  exact (C10_stsd_zero_entry_count stsdZeroEntries ⟨7, true, 9, 9, 9⟩
    ⟨16, BOX_TYPE_STSD, 8⟩ (by decide) rfl (by decide) (by decide)).1

/-- C9: `sonix_detect_format` is a function of the bytes alone; it returns
Unknown for inputs shorter than 4 bytes and when no signature matches, and
checks the ID3, MP3-sync, RIFF/WAVE, fLaC, OggS signatures in that priority
order. -/
theorem C9_detect_format_contract (d : List Nat) :
    (d.length < 4 → sonix_detect_format d = SONIX_FORMAT_UNKNOWN) ∧
    (4 ≤ d.length → id3Sig d = false → mp3SyncSig d = false → wavSig d = false →
       flacSig d = false → oggSig d = false →
       sonix_detect_format d = SONIX_FORMAT_UNKNOWN) ∧
    (4 ≤ d.length → id3Sig d = true → sonix_detect_format d = SONIX_FORMAT_MP3) ∧
    (4 ≤ d.length → id3Sig d = false → mp3SyncSig d = true →
       sonix_detect_format d = SONIX_FORMAT_MP3) ∧
    (4 ≤ d.length → id3Sig d = false → mp3SyncSig d = false → 12 ≤ d.length →
       wavSig d = true → sonix_detect_format d = SONIX_FORMAT_WAV) ∧
    (4 ≤ d.length → id3Sig d = false → mp3SyncSig d = false →
       ¬ (12 ≤ d.length ∧ wavSig d = true) → flacSig d = true →
       sonix_detect_format d = SONIX_FORMAT_FLAC) ∧
    (4 ≤ d.length → id3Sig d = false → mp3SyncSig d = false →
       ¬ (12 ≤ d.length ∧ wavSig d = true) → flacSig d = false → oggSig d = true →
       sonix_detect_format d = SONIX_FORMAT_OGG) := by
  refine ⟨fun hl => ?_, fun hl hi hs hw hf ho => ?_, fun hl hi => ?_,
    fun hl hi hs => ?_, fun hl hi hs hl12 hw => ?_, fun hl hi hs hw hf => ?_,
    fun hl hi hs hw hf ho => ?_⟩ <;>
    simp only [sonix_detect_format]
  · rw [if_pos hl]
  · rw [if_neg (by omega), if_neg (by simp [hi]), if_neg (by simp [hs]),
      if_neg (by simp [hw]), if_neg (by simp [hf]), if_neg (by simp [ho])]
  · rw [if_neg (by omega), if_pos ⟨by omega, hi⟩]
  · rw [if_neg (by omega), if_neg (by simp [hi]), if_pos ⟨by omega, hs⟩]
  · rw [if_neg (by omega), if_neg (by simp [hi]), if_neg (by simp [hs]),
      if_pos ⟨hl12, hw⟩]
  · rw [if_neg (by omega), if_neg (by simp [hi]), if_neg (by simp [hs]),
      if_neg hw, if_pos ⟨by omega, hf⟩]
  · rw [if_neg (by omega), if_neg (by simp [hi]), if_neg (by simp [hs]),
      if_neg hw, if_neg (by simp [hf]), if_pos ⟨by omega, ho⟩]

/-- C9 witness: the contract applied to an ID3-tagged input, a FLAC-signed
input and a no-signature input. -/
theorem C9_detect_format_witness :
    sonix_detect_format [0x49, 0x44, 0x33, 0] = SONIX_FORMAT_MP3 ∧
    sonix_detect_format [0x66, 0x4C, 0x61, 0x43] = SONIX_FORMAT_FLAC ∧
    sonix_detect_format [0, 0, 0, 0] = SONIX_FORMAT_UNKNOWN ∧
    sonix_detect_format [0, 0] = SONIX_FORMAT_UNKNOWN := by
  refine ⟨(C9_detect_format_contract _).2.2.1 (by decide) (by decide), ?_, ?_, ?_⟩
  · exact (C9_detect_format_contract _).2.2.2.2.2.1 (by decide) (by decide)
      (by decide) (by decide) (by decide)
  · exact (C9_detect_format_contract _).2.1 (by decide) (by decide) (by decide)
      (by decide) (by decide) (by decide)
  · exact (C9_detect_format_contract _).1 (by decide)

/-- `exactOnIntegersEstimate` has the exactness property of the C's double
expression. -/
theorem exactOnIntegersEstimate_exact :
    SeekEstimateExactOnIntegers exactOnIntegersEstimate := by
  intro k fs hk hp
  show 1000 * k * fs / 1000 = k * fs
  rw [mul_assoc]
  exact Nat.mul_div_cancel_left _ (by norm_num)

/-- C2 counterexample: on an initialized MP3 chunked decoder over a 100-byte
source, seeking to 2000 ms succeeds and repositions the source at byte 200 —
past end-of-source, with no safety margin subtracted, contradicting the
claim that the repositioned offset is at most the file size.  At this input
the double computation is exact (`2000 / 1000.0 = 2.0` and `2.0 * 100 =
200.0` are exactly representable), so the instantiated estimate equals the
C's value here. -/
theorem C2_seek_counterexample :
    exactOnIntegersEstimate 2000 100 = 200 ∧
    sonix_seek_to_time exactOnIntegersEstimate seekDemoDecoder 2000 =
      .ok { seekDemoDecoder with current_position := 200 } ∧
    seekDemoDecoder.file_size < 200 := by decide

/-- C2 amended: for MP3/FLAC (the roughly-constant-bitrate formats of this
code), a successful seek repositions the source exactly at the
double-precision evaluation of `time_ms/1000 × file_size`, with no safety
margin subtracted, no end-of-source clamp, and no normalisation by
duration; whenever that computation is exact in doubles — `time_ms` a whole
number of seconds below `2^32` with the scaled product below `2^53` — the
offset is exactly `k * file_size`, which exceeds the file size for any
whole second beyond the first on a nonempty source. -/
theorem C2_seek_amended (est : SeekEstimate) (dec : SonixChunkedDecoderS)
    (tm : Nat) (hest : SeekEstimateExactOnIntegers est)
    (hh : dec.has_file_handle = true)
    (hf : dec.format = SONIX_FORMAT_MP3 ∨ dec.format = SONIX_FORMAT_FLAC)
    (hi : dec.properties_initialized = true) (hs : 0 < dec.sample_rate) :
    sonix_seek_to_time est dec tm =
      .ok { dec with current_position := est tm dec.file_size } ∧
    (∀ k, tm = 1000 * k → k < 2 ^ 32 → k * dec.file_size < 2 ^ 53 →
       est tm dec.file_size = k * dec.file_size ∧
       (2 ≤ k → 0 < dec.file_size →
         dec.file_size < est tm dec.file_size)) := by
  constructor
  · simp only [sonix_seek_to_time]
    rw [if_neg (by simp [hh]), if_pos hf, if_pos ⟨by simp [hi], hs⟩]
  · rintro k rfl hk hp
    have he := hest k dec.file_size hk hp
    refine ⟨he, fun h2 hfs => ?_⟩
    rw [he]
    have h2fs : 2 * dec.file_size ≤ k * dec.file_size :=
      Nat.mul_le_mul_right _ h2
    omega

/-- C2 witness: the amended seek behaviour at 3000 ms on the demo decoder,
with the estimate instantiated at a function having the C expression's
exactness property. -/
theorem C2_seek_amended_witness :
    sonix_seek_to_time exactOnIntegersEstimate seekDemoDecoder 3000 =
      .ok { seekDemoDecoder with current_position := 300 } ∧
    seekDemoDecoder.file_size <
      exactOnIntegersEstimate 3000 seekDemoDecoder.file_size := by
  have h := C2_seek_amended exactOnIntegersEstimate seekDemoDecoder 3000
    exactOnIntegersEstimate_exact rfl (Or.inl rfl) rfl (by decide)
  exact ⟨h.1, (h.2 3 rfl (by decide) (by decide)).2 (by decide) (by decide)⟩

/-- C7: releasing a NULL handle or NULL result is a no-op (that half of the
claim holds), but calling `sonix_cleanup_chunked_decoder` twice with the
same non-null handle releases the decoder struct twice — the double release
the claim forbids (and, when a path is allocated, double-frees it too). -/
theorem C7_cleanup_double_release (s : DecoderResources) :
    sonix_cleanup_chunked_decoder none = [] ∧
    sonix_free_chunk_result none = [] ∧
    (sonix_cleanup_chunked_decoder (some s) ++
      sonix_cleanup_chunked_decoder (some s)).count .free_decoder_struct = 2 ∧
    (sonix_cleanup_chunked_decoder (some s) ++
      sonix_cleanup_chunked_decoder (some s)).count .free_file_path =
      (if s.file_path_allocated then 2 else 0) := by
  have hone : (cleanup_actions s).count ReleaseAction.free_decoder_struct = 1 := by
    unfold cleanup_actions
    split_ifs <;> rfl
  have hp : (cleanup_actions s).count ReleaseAction.free_file_path =
      (if s.file_path_allocated then 1 else 0) := by
    unfold cleanup_actions
    split_ifs <;> rfl
  refine ⟨rfl, rfl, ?_, ?_⟩
  · simp [sonix_cleanup_chunked_decoder, List.count_append, hone]
  · simp only [sonix_cleanup_chunked_decoder, List.count_append, hp]
    split_ifs <;> rfl

/-- C3 counterexample: a 10-byte zero buffer has no ftyp box, yet
`mp4_validate_container` reports InvalidData (its 32-byte input guard), not
the ContainerInvalid the claim's precedence requires for a missing ftyp. -/
theorem C3_precedence_counterexample :
    mp4_find_box (List.replicate 10 0) BOX_TYPE_FTYP = none ∧
    mp4_validate_container (List.replicate 10 0) = .error .invalidData ∧
    SonixErr.invalidData ≠ SonixErr.mp4ContainerInvalid := by decide

/-- C3 amended: for buffers of at least 32 bytes, `mp4_validate_container`
applies the claimed precedence — missing ftyp → ContainerInvalid; a found
ftyp box that fails validation propagates that error (InvalidData for a
too-small box, UnsupportedCodec for a bad brand); then missing moov →
ContainerInvalid; then a failing audio-track scan → NoAudioTrack; then an
invalid or unsupported track → UnsupportedCodec; otherwise success. -/
theorem C3_validate_container_amended (d : List Nat) (h32 : 32 ≤ d.length) :
    (mp4_find_box d BOX_TYPE_FTYP = none →
       mp4_validate_container d = .error .mp4ContainerInvalid) ∧
    (∀ fo fs, mp4_find_box d BOX_TYPE_FTYP = some (fo, fs) →
       (∀ e, mp4_validate_ftyp_box ((d.drop fo).take fs) = .error e →
          mp4_validate_container d = .error e) ∧
       (mp4_validate_ftyp_box ((d.drop fo).take fs) = .ok () →
          (mp4_find_box d BOX_TYPE_MOOV = none →
             mp4_validate_container d = .error .mp4ContainerInvalid) ∧
          (∀ mo ms, mp4_find_box d BOX_TYPE_MOOV = some (mo, ms) →
             (∀ e, mp4_find_audio_track ((d.drop mo).take ms) = .error e →
                mp4_validate_container d = .error e ∧ e = .mp4NoAudioTrack) ∧
             (∀ t, mp4_find_audio_track ((d.drop mo).take ms) = .ok t →
                (¬ (t.is_valid = true ∧ t.sample_description.is_supported = true) →
                   mp4_validate_container d = .error .mp4UnsupportedCodec) ∧
                (t.is_valid = true → t.sample_description.is_supported = true →
                   mp4_validate_container d = .ok ()))))) := by
  constructor
  · intro hnone
    simp only [mp4_validate_container]
    rw [if_neg (by omega), hnone]
  · intro fo fs hftyp
    constructor
    · intro e he
      simp only [mp4_validate_container]
      rw [if_neg (by omega)]
      simp only [hftyp, he]
    · intro hok
      constructor
      · intro hmnone
        simp only [mp4_validate_container]
        rw [if_neg (by omega)]
        simp only [hftyp, hok, hmnone]
      · intro mo ms hmoov
        constructor
        · intro e he
          refine ⟨?_, find_audio_track_error_on_found hmoov e he⟩
          simp only [mp4_validate_container]
          rw [if_neg (by omega)]
          simp only [hftyp, hok, hmoov, he]
        · intro t ht
          constructor
          · intro hbad
            simp only [mp4_validate_container]
            rw [if_neg (by omega)]
            simp only [hftyp, hok, hmoov, ht]
            rw [if_pos (by tauto)]
          · intro hv hsup
            simp only [mp4_validate_container]
            rw [if_neg (by omega)]
            simp only [hftyp, hok, hmoov, ht]
            rw [if_neg (by simp [hv, hsup])]

/-- C3 witness: the amended precedence applied to the isom ftyp box alone —
ftyp found and valid, no moov, hence ContainerInvalid. -/
theorem C3_validate_container_amended_witness :
    mp4_validate_container ftypIsomBox = .error .mp4ContainerInvalid := by
  have h := C3_validate_container_amended ftypIsomBox (by decide)
  exact ((h.2 0 32 (by decide)).2 (by decide)).1 (by decide)

/-- C6 counterexample: `moovDemo` holds a single trak whose handler reports
audio and whose minf/stbl chain parses, but which has neither an mdhd box
nor an stsd box, so the mdhd and stsd sub-parses cannot succeed; the scan
nevertheless returns it as a valid track, contradicting the claim that all
sub-parses (mdhd, minf, stbl, stsd, sample table) must succeed. -/
theorem C6_find_audio_track_counterexample :
    mp4_find_audio_track moovDemo = .ok moovDemoTrack ∧
    moovDemoTrack.is_valid = true ∧
    mp4_find_box (hdlrDemo ++ minfDemo) BOX_TYPE_MDHD = none ∧
    mp4_find_box (hdlrDemo ++ minfDemo) BOX_TYPE_STSD = none := by decide

/-- C6 amended: the trak scan accepts the first trak whose
mdia → audio-handler → minf → stbl chain is discoverable and parsable —
the mdhd and stsd sub-parses are not consulted for acceptance (their
failures merely leave the corresponding fields zeroed); every accepted
track is marked valid; on a rejected trak the scan advances to the next
trak sibling; and every error exit of the scan is NoAudioTrack, reported
only after no further trak can be found. -/
theorem C6_track_scan_amended (d : List Nat) :
    (∀ track tc, (trakStep track tc).2 = trakAcceptanceSpec tc) ∧
    (∀ track tc t1, trakStep track tc = (t1, true) → t1.is_valid = true) ∧
    (∀ fuel off track e, findAudioLoop d fuel off track = .error e →
       e = .mp4NoAudioTrack) ∧
    (∀ fuel off track toff tsz th,
       ¬ d.length - off < 8 →
       mp4_find_box (d.drop off) BOX_TYPE_TRAK = some (toff, tsz) →
       mp4_parse_box_header ((d.drop (off + toff)).take tsz) = .ok th →
       (∀ t1, trakStep track (((d.drop (off + toff)).take tsz).drop
            th.header_size) = (t1, true) →
          findAudioLoop d (fuel + 1) off track = .ok t1) ∧
       (∀ t1, trakStep track (((d.drop (off + toff)).take tsz).drop
            th.header_size) = (t1, false) →
          ¬ d.length - off < tsz →
          findAudioLoop d (fuel + 1) off track =
            findAudioLoop d fuel (off + toff + tsz) t1)) := by
  refine ⟨?_, ?_, findAudioLoop_error_eq d, ?_⟩
  · intro track tc
    simp only [trakStep, trakAcceptanceSpec]
    repeat' split
    all_goals simp_all
  · intro track tc t1 hstep
    simp only [trakStep] at hstep
    repeat' split at hstep
    all_goals simp_all
    all_goals (subst hstep; rfl)
  · intro fuel off track toff tsz th h8 hfb hparse
    constructor
    · intro t1 hstep
      simp only [findAudioLoop]
      rw [if_neg h8]
      simp only [hfb, hparse, hstep]
    · intro t1 hstep h2
      simp only [findAudioLoop]
      rw [if_neg h8]
      simp only [hfb, hparse, hstep]
      rw [if_neg h2]

/-- C6 witness: the amended scan characterisation applied to `moovDemo`'s
single mdhd-less, stsd-less audio trak. -/
theorem C6_track_scan_amended_witness :
    findAudioLoop moovDemo 73 8 track0 = .ok moovDemoTrack ∧
    (trakStep track0 (((moovDemo.drop 8).take 56).drop 8)).2 =
      trakAcceptanceSpec (((moovDemo.drop 8).take 56).drop 8) := by
  have h := C6_track_scan_amended moovDemo
  refine ⟨?_, h.1 track0 _⟩
  exact (h.2.2.2 72 8 track0 0 56 ⟨56, BOX_TYPE_TRAK, 8⟩ (by decide) (by decide)
    (by decide)).1 moovDemoTrack (by decide)

/-- The toy backend satisfies the collaborator progress contract: a
successful unit decode consumes at least one byte. -/
theorem toyDec_progress :
    ∀ l, (toyDec l).samples ≠ 0 → 1 ≤ (toyDec l).info.frame_bytes := by
  intro l h
  by_cases hc : 4 ≤ l.length ∧ byteAt l 0 = 0xFF ∧ byteAt l 1 = 0xE0
  · simp [toyDec, hc]
  · exfalso
    apply h
    simp [toyDec, hc]

/-- Under the backend progress contract, the chunks emitted by the
`process_mp3_chunk` loop do not depend on the fuel once it covers the
remaining bytes — the loop reaches the end of the buffer in at most
`d.length - off` iterations, since every iteration advances the cursor. -/
theorem processMp3Loop_fuel_irrelevant (u : Backend) (d : List Nat)
    (hprog : ∀ l, (u l).samples ≠ 0 → 1 ≤ (u l).info.frame_bytes) :
    ∀ n f1 f2 off pos, d.length - off ≤ n → d.length - off ≤ f1 →
      d.length - off ≤ f2 →
      processMp3Loop u d f1 off pos = processMp3Loop u d f2 off pos := by
  intro n
  induction n with
  | zero =>
    intro f1 f2 off pos hn h1 h2
    have hoff : d.length ≤ off := by omega
    cases f1 <;> cases f2 <;> simp [processMp3Loop, if_pos hoff]
  | succ n ih =>
    intro f1 f2 off pos hn h1 h2
    by_cases hoff : d.length ≤ off
    · cases f1 <;> cases f2 <;> simp [processMp3Loop, if_pos hoff]
    · push_neg at hoff
      obtain ⟨a, rfl⟩ : ∃ a, f1 = a + 1 := ⟨f1 - 1, by omega⟩
      obtain ⟨b, rfl⟩ : ∃ b, f2 = b + 1 := ⟨f2 - 1, by omega⟩
      have hng : ¬ d.length ≤ off := by omega
      simp only [processMp3Loop]
      rw [if_neg hng, if_neg hng]
      by_cases hs : (u (d.drop off)).samples = 0
      · rw [if_pos hs, if_pos hs]
        by_cases hfb : (u (d.drop off)).info.frame_bytes = 0
        · rw [if_pos hfb, if_pos hfb]
          exact ih a b (off + 1) pos (by omega) (by omega) (by omega)
        · rw [if_neg hfb, if_neg hfb]
          exact ih a b (off + (u (d.drop off)).info.frame_bytes) pos
            (by omega) (by omega) (by omega)
      · rw [if_neg hs, if_neg hs]
        have hfb := hprog (d.drop off) hs
        congr 1
        exact ih a b (off + (u (d.drop off)).info.frame_bytes)
          (pos + (u (d.drop off)).samples) (by omega) (by omega) (by omega)

/-- C8 counterexample: a backend report classified need-more-data with zero
bytes consumed is not a "unit-level failure with zero bytes consumed that is
not a need-more-data condition", so by the claim the cursor should advance
by the reported byte count (0); the code advances it by exactly one byte. -/
theorem C8_need_more_data_counterexample :
    (nmdDec [0]).samples = 0 ∧
    (nmdDec [0]).info.frame_bytes = 0 ∧
    (nmdDec [0]).need_more_data = true ∧
    stepAdvance nmdDec [0] 0 = 1 ∧
    stepAdvance nmdDec [0] 0 ≠ (nmdDec [0]).info.frame_bytes := by decide

/-- C8 amended: the decode loop of `process_mp3_chunk` advances the cursor
by exactly one byte on every zero-samples, zero-bytes-consumed report —
the implementation cannot distinguish need-more-data, so that case is
included — and by the reported byte count otherwise; under the backend
contract (successes consume at least one byte) every iteration advances by
at least one byte, and the loop terminates by exhausting the chunk buffer
(its result is fuel-independent once the fuel covers the remaining
bytes). -/
theorem C8_process_loop_amended (u : Backend) (d : List Nat)
    (hprog : ∀ l, (u l).samples ≠ 0 → 1 ≤ (u l).info.frame_bytes) :
    (∀ off, (u (d.drop off)).samples = 0 →
       (u (d.drop off)).info.frame_bytes = 0 → stepAdvance u d off = 1) ∧
    (∀ off, (u (d.drop off)).samples = 0 →
       (u (d.drop off)).info.frame_bytes ≠ 0 →
       stepAdvance u d off = (u (d.drop off)).info.frame_bytes) ∧
    (∀ off, (u (d.drop off)).samples ≠ 0 →
       stepAdvance u d off = (u (d.drop off)).info.frame_bytes) ∧
    (∀ off, 1 ≤ stepAdvance u d off) ∧
    (∀ fuel off pos, off < d.length →
       processMp3Loop u d (fuel + 1) off pos =
         (if (u (d.drop off)).samples = 0 then []
          else [⟨(u (d.drop off)).samples * (u (d.drop off)).info.channels,
                 pos, false⟩]) ++
         processMp3Loop u d fuel (off + stepAdvance u d off)
           (pos + (u (d.drop off)).samples)) ∧
    (∀ f1 f2 off pos, d.length - off ≤ f1 → d.length - off ≤ f2 →
       processMp3Loop u d f1 off pos = processMp3Loop u d f2 off pos) := by
  refine ⟨?_, ?_, ?_, ?_, ?_, ?_⟩
  · intro off hs hfb
    simp [stepAdvance, hs, hfb]
  · intro off hs hfb
    simp [stepAdvance, hs, hfb]
  · intro off hs
    simp [stepAdvance, hs]
  · intro off
    by_cases hs : (u (d.drop off)).samples = 0
    · by_cases hfb : (u (d.drop off)).info.frame_bytes = 0
      · simp [stepAdvance, hs, hfb]
      · simp [stepAdvance, hs, hfb]
        omega
    · have := hprog (d.drop off) hs
      simp [stepAdvance, hs]
      omega
  · intro fuel off pos hoff
    simp only [processMp3Loop, stepAdvance]
    rw [if_neg (by omega)]
    by_cases hs : (u (d.drop off)).samples = 0
    · by_cases hfb : (u (d.drop off)).info.frame_bytes = 0
      · rw [if_pos hs, if_pos hfb, if_pos hs, if_pos ⟨hs, hfb⟩]
        simp [hs]
      · rw [if_pos hs, if_neg hfb, if_pos hs,
          if_neg (by simp [hfb] : ¬ ((u (d.drop off)).samples = 0 ∧
            (u (d.drop off)).info.frame_bytes = 0))]
        simp [hs]
    · rw [if_neg hs, if_neg hs,
        if_neg (by simp [hs] : ¬ ((u (d.drop off)).samples = 0 ∧
          (u (d.drop off)).info.frame_bytes = 0))]
      simp
  · intro f1 f2 off pos h1 h2
    exact processMp3Loop_fuel_irrelevant u d hprog (d.length - off) f1 f2 off pos
      le_rfl h1 h2

/-- C8 witness: the amended loop contract applied to the toy backend on the
two-frame demo bytes. -/
theorem C8_process_loop_amended_witness :
    stepAdvance toyDec mp3DemoBytes 0 = 4 ∧
    1 ≤ stepAdvance toyDec mp3DemoBytes 2 ∧
    processMp3Loop toyDec mp3DemoBytes 8 0 0 =
      processMp3Loop toyDec mp3DemoBytes 100 0 0 := by
  have h := C8_process_loop_amended toyDec mp3DemoBytes toyDec_progress
  refine ⟨?_, h.2.2.2.1 2, h.2.2.2.2.2 8 100 0 0 (by decide) (by decide)⟩
  rw [h.2.2.1 0 (by decide)]
  decide

/-- C1: at a two-frame stream split into two FileChunks at the frame
boundary (no header bytes split), whole-file decode covers sample positions
0..3, but the two `process_chunk` calls cover the multiset {0,1} twice:
`current_sample_position` restarts at zero on every call, so the covered
multisets differ, refuting the claimed equality. -/
theorem C1_chunked_vs_whole_divergence :
    chunkA.data ++ chunkB.data = mp3DemoBytes ∧
    decode_mp3 toyDec mp3DemoBytes = some 4 ∧
    wholePositions toyDec mp3DemoBytes = Multiset.range 4 ∧
    process_mp3_chunk toyDec chunkA = [⟨2, 0, false⟩] ∧
    process_mp3_chunk toyDec chunkB = [⟨2, 0, true⟩] ∧
    chunkedPositions toyDec [chunkA, chunkB] = ({0, 1, 0, 1} : Multiset Nat) ∧
    chunkedPositions toyDec [chunkA, chunkB] ≠
      wholePositions toyDec mp3DemoBytes := by decide

end Sonix
